import Mathlib

/-!
Verification of the restaurant-management-system core: the order lifecycle,
the fulfillment scheduler shown on the kitchen display, and the table
registry.  Definitions are shallow embeddings of the TypeScript source:
the drizzle schema (shared/schema.ts), the storage layer
(server/storage.ts), the Express routes (server/routes.ts) and the
kitchen-display component (KitchenDisplay).  Timestamps are modelled as
integer milliseconds, thrown `Error(msg)` as `Except.error msg`, and the
database as explicit in-memory row lists.
-/

namespace Restaurant

/-- Enum `orderTypes = ["dine_in", "takeaway"]` from shared/schema.ts. -/
inductive OrderType
| dine_in
| takeaway
deriving DecidableEq, Repr

/-- Enum `orderStatuses` from shared/schema.ts. -/
inductive OrderStatus
| pending
| confirmed
| preparing
| ready
| completed
| cancelled
deriving DecidableEq, Repr

/-- Enum `orderPriorities = ["low", "medium", "high", "urgent"]` from shared/schema.ts. -/
inductive OrderPriority
| low
| medium
| high
| urgent
deriving DecidableEq, Repr

/-- Enum `tableStatuses = ["available", "occupied", "reserved"]` from shared/schema.ts. -/
inductive TableStatus
| available
| occupied
| reserved
deriving DecidableEq, Repr

/-- Enum `tableShapes = ["square", "round", "rectangular"]` from shared/schema.ts. -/
inductive TableShape
| square
| round
| rectangular
deriving DecidableEq, Repr

/-- A row of the `orders` table (shared/schema.ts).  `createdAt` and
`estimatedReadyTime` are timestamps in milliseconds. -/
structure OrderRow where
  id : Nat
  orderType : OrderType
  status : OrderStatus
  priority : OrderPriority
  tableNumber : Option Int
  customerName : String
  customerPhone : Option String
  totalAmount : Int
  specialInstructions : Option String
  createdAt : Int
  estimatedReadyTime : Option Int
deriving DecidableEq, Repr

/-- A row of the `order_items` table (shared/schema.ts). -/
structure OrderItemRow where
  id : Nat
  orderId : Nat
  menuItemId : Nat
  quantity : Int
  specialInstructions : Option String
  price : Int
deriving DecidableEq, Repr

/-- A row of the `tables` table (shared/schema.ts). -/
structure TableRow where
  id : Nat
  tableNumber : Int
  capacity : Int
  status : TableStatus
  shape : TableShape
  positionX : Int
  positionY : Int
  width : Int
  height : Int
  isActive : Bool
  customerName : Option String
deriving DecidableEq, Repr

/-- Payload of one entry of `insertOrderSchema.orderItems`
(`insertOrderItemSchema.omit (orderId)`). -/
structure InsertOrderItem where
  menuItemId : Nat
  quantity : Int
  price : Int
  specialInstructions : Option String
deriving DecidableEq, Repr

/-- Payload accepted by `insertOrderSchema` (shared/schema.ts): the schema
omits id, createdAt, status and priority. -/
structure InsertOrder where
  orderType : OrderType
  tableNumber : Option Int
  customerName : String
  customerPhone : Option String
  totalAmount : Int
  specialInstructions : Option String
  orderItems : List InsertOrderItem
deriving DecidableEq, Repr

/-- Payload accepted by `insertTableSchema` (shared/schema.ts): the schema
omits id and isActive. -/
structure InsertTable where
  tableNumber : Int
  capacity : Int
  status : TableStatus
  shape : TableShape
  positionX : Int
  positionY : Int
  width : Int
  height : Int
  customerName : Option String
deriving DecidableEq, Repr

/-- The persistent state of the database: the row lists of the three core
tables plus the serial-id counters. -/
structure DBState where
  orders : List OrderRow
  orderItems : List OrderItemRow
  tables : List TableRow
  nextOrderId : Nat
  nextOrderItemId : Nat
  nextTableId : Nat
deriving DecidableEq, Repr

/-- The empty database. -/
def initState : DBState :=
  { orders := [], orderItems := [], tables := [],
    nextOrderId := 1, nextOrderItemId := 1, nextTableId := 1 }

/-- Serial ids handed out so far are below the counters; every line item
references an already-allocated order id. -/
def DBState.ordersFresh (s : DBState) : Bool :=
  s.orders.all (fun o => decide (o.id < s.nextOrderId)) &&
  s.orderItems.all (fun it => decide (it.orderId < s.nextOrderId))

/-- Line items of one order: `select from order_items where order_id = id`. -/
def itemsOf (s : DBState) (orderId : Nat) : List OrderItemRow :=
  s.orderItems.filter (fun it => it.orderId == orderId)

/-! ### Order store (server/storage.ts) -/

/-- The order row built by the first insert of `DatabaseStorage.createOrder`:
status is set explicitly to `pending`; priority is not set, so the column
default `medium` (shared/schema.ts) applies; `createdAt` defaults to now;
`estimatedReadyTime` is not supplied. -/
def insertedOrderRow (s : DBState) (now : Int) (i : InsertOrder) : OrderRow :=
  { id := s.nextOrderId
    orderType := i.orderType
    status := OrderStatus.pending
    priority := OrderPriority.medium
    tableNumber := i.tableNumber
    customerName := i.customerName
    customerPhone := i.customerPhone
    totalAmount := i.totalAmount
    specialInstructions := i.specialInstructions
    createdAt := now
    estimatedReadyTime := none }

/-- The line-item rows built by the second insert of
`DatabaseStorage.createOrder`, each tagged with the new order's id. -/
def insertedItemRows (firstId : Nat) (orderId : Nat)
    (items : List InsertOrderItem) : List OrderItemRow :=
  items.enum.map (fun p =>
    { id := firstId + p.1
      orderId := orderId
      menuItemId := p.2.menuItemId
      quantity := p.2.quantity
      specialInstructions := p.2.specialInstructions
      price := p.2.price })

/-- `DatabaseStorage.createOrder`: both inserts run inside `db.transaction`,
so they commit as one unit or not at all.  On an empty `orderItems` list
the second insert, `tx.insert(orderItems).values([])`, deterministically
throws (drizzle rejects an empty values array; a zero-tuple INSERT is not
valid SQL), rolling the transaction back.  `itemsInsertFails` is the
environment's choice of whether the second insert raises for an I/O
reason; on any raise the transaction rolls back and no intermediate state
is ever observable. -/
def createOrder (itemsInsertFails : Bool) (now : Int) (s : DBState)
    (i : InsertOrder) : Except String (OrderRow × DBState) :=
  let o := insertedOrderRow s now i
  if i.orderItems.isEmpty then
    Except.error "values() must be called with at least one value"
  else if itemsInsertFails then
    Except.error "transaction rolled back"
  else
    Except.ok (o,
      { s with
        orders := s.orders ++ [o]
        orderItems := s.orderItems ++
          insertedItemRows s.nextOrderItemId o.id i.orderItems
        nextOrderId := s.nextOrderId + 1
        nextOrderItemId := s.nextOrderItemId + i.orderItems.length })

/-- Status filter of `DatabaseStorage.getActiveOrders`:
`status IN ('pending', 'confirmed', 'preparing', 'ready')`. -/
def isActiveStatus : OrderStatus → Bool
| OrderStatus.pending => true
| OrderStatus.confirmed => true
| OrderStatus.preparing => true
| OrderStatus.ready => true
| OrderStatus.completed => false
| OrderStatus.cancelled => false

/-- Status filter of `DatabaseStorage.getCompletedOrders`:
`status IN ('completed', 'cancelled')`. -/
def isHistoricalStatus : OrderStatus → Bool
| OrderStatus.completed => true
| OrderStatus.cancelled => true
| _ => false

/-- `ORDER BY created_at` as a sorting relation. -/
def createdLe (a b : OrderRow) : Prop := a.createdAt ≤ b.createdAt

instance : DecidableRel createdLe := fun a b => Int.decLe _ _

/-- `DatabaseStorage.getActiveOrders`: active-status orders, oldest first,
each with its aggregated line items. -/
def getActiveOrders (s : DBState) : List (OrderRow × List OrderItemRow) :=
  (List.insertionSort createdLe
      (s.orders.filter (fun o => isActiveStatus o.status))).map
    (fun o => (o, itemsOf s o.id))

/-- `DatabaseStorage.getCompletedOrders`: historical-status orders, oldest
first, each with its aggregated line items. -/
def getCompletedOrders (s : DBState) : List (OrderRow × List OrderItemRow) :=
  (List.insertionSort createdLe
      (s.orders.filter (fun o => isHistoricalStatus o.status))).map
    (fun o => (o, itemsOf s o.id))

/-- `DatabaseStorage.updateOrderStatus`: `update orders set status where id
returning`; throws `Error("Order not found")` when the id resolves to no
row. -/
def updateOrderStatus (s : DBState) (id : Nat) (st : OrderStatus) :
    Except String (OrderRow × DBState) :=
  match s.orders.find? (fun o => o.id == id) with
  | none => Except.error "Order not found"
  | some o =>
    let f := fun (u : OrderRow) => if u.id == id then { u with status := st } else u
    Except.ok ({ o with status := st }, { s with orders := s.orders.map f })

/-! ### Table registry (server/storage.ts) -/

/-- `DatabaseStorage.tableNumberExists`: selects by table number with no
filter on `is_active`, so soft-deleted tables count. -/
def tableNumberExists (s : DBState) (n : Int) : Bool :=
  s.tables.any (fun t => t.tableNumber == n)

/-- `DatabaseStorage.createTable`: pre-checks the number, throws
`Error("duplicate_table_number")` on a hit, otherwise inserts with the
`is_active` column default `true`. -/
def createTable (s : DBState) (t : InsertTable) :
    Except String (TableRow × DBState) :=
  if tableNumberExists s t.tableNumber then
    Except.error "duplicate_table_number"
  else
    let row : TableRow :=
      { id := s.nextTableId
        tableNumber := t.tableNumber
        capacity := t.capacity
        status := t.status
        shape := t.shape
        positionX := t.positionX
        positionY := t.positionY
        width := t.width
        height := t.height
        isActive := true
        customerName := t.customerName }
    Except.ok (row, { s with tables := s.tables ++ [row],
                             nextTableId := s.nextTableId + 1 })

/-- A `Partial<InsertTable>` as accepted by `DatabaseStorage.updateTable`. -/
structure PartialInsertTable where
  tableNumber : Option Int := none
  capacity : Option Int := none
  status : Option TableStatus := none
  shape : Option TableShape := none
  positionX : Option Int := none
  positionY : Option Int := none
  width : Option Int := none
  height : Option Int := none
  customerName : Option (Option String) := none
deriving DecidableEq, Repr

/-- `db.update(tables).set(partial)` applied to one row: only the supplied
columns change. -/
def applyPartialTable (p : PartialInsertTable) (t : TableRow) : TableRow :=
  { t with
    tableNumber := p.tableNumber.getD t.tableNumber
    capacity := p.capacity.getD t.capacity
    status := p.status.getD t.status
    shape := p.shape.getD t.shape
    positionX := p.positionX.getD t.positionX
    positionY := p.positionY.getD t.positionY
    width := p.width.getD t.width
    height := p.height.getD t.height
    customerName := p.customerName.getD t.customerName }

/-- `DatabaseStorage.updateTable`: partial update by id; throws
`Error("Table not found")` when no row matches. -/
def updateTable (s : DBState) (id : Nat) (p : PartialInsertTable) :
    Except String (TableRow × DBState) :=
  match s.tables.find? (fun t => t.id == id) with
  | none => Except.error "Table not found"
  | some t =>
    let f := fun (u : TableRow) => if u.id == id then applyPartialTable p u else u
    Except.ok (applyPartialTable p t, { s with tables := s.tables.map f })

/-- `DatabaseStorage.updateTableStatus(id, status)`: the method signature
accepts only the id and the status and its `set` clause writes only the
`status` column. -/
def updateTableStatus (s : DBState) (id : Nat) (st : TableStatus) :
    Except String (TableRow × DBState) :=
  match s.tables.find? (fun t => t.id == id) with
  | none => Except.error "Table not found"
  | some t =>
    let f := fun (u : TableRow) => if u.id == id then { u with status := st } else u
    Except.ok ({ t with status := st }, { s with tables := s.tables.map f })

/-- `DatabaseStorage.deleteTable`: a soft delete, `update tables set
is_active = false where id`; throws `Error("Table not found")` when no row
matches. -/
def deleteTable (s : DBState) (id : Nat) : Except String DBState :=
  if s.tables.any (fun t => t.id == id) then
    let f := fun (t : TableRow) => if t.id == id then { t with isActive := false } else t
    Except.ok { s with tables := s.tables.map f }
  else
    Except.error "Table not found"

/-! ### Route boundary (server/routes.ts) -/

/-- The methods defined on `class DatabaseStorage` in server/storage.ts,
in source order.  Notably absent: `updateOrder`, which the priority and
estimated-time routes call. -/
def databaseStorageMethods : List String :=
  ["getMenuItems", "getMenuItem", "createMenuItem", "updateMenuItem",
   "deleteMenuItem", "getMenuItemsByCategory", "getCrossContaminationRisks",
   "createCrossContaminationRisk", "updateCrossContaminationRisk",
   "deleteCrossContaminationRisk", "getUser", "getUserByUsername",
   "createUser", "updateUser", "getReviews", "createReview", "updateReview",
   "deleteReview", "getAverageRating", "createOrder", "getOrder",
   "updateOrderStatus", "getOrdersByStatus", "getActiveOrders",
   "getCompletedOrders", "getCustomerByNameAndTable", "createCustomer",
   "updateCustomerLastVisit", "getTables", "getTable", "tableNumberExists",
   "createTable", "updateTable", "updateTableStatus", "deleteTable"]

/-- `insertOrderItemSchema` checks: `quantity: z.number().min(1)`,
`price: z.number().min(0)`. -/
def insertOrderItemValid (it : InsertOrderItem) : Bool :=
  decide (1 ≤ it.quantity) && decide (0 ≤ it.price)

/-- `insertOrderSchema` checks: `tableNumber: z.number().min(1).optional()`,
`customerName: z.string().min(1)`, `totalAmount: z.number().min(0)`, and
each line item against `insertOrderItemSchema`.  The schema places no
lower bound on the length of `orderItems`, does not require a table number
for `dine_in`, and does not reject one for `takeaway`. -/
def insertOrderValid (i : InsertOrder) : Bool :=
  (match i.tableNumber with
   | none => true
   | some n => decide (1 ≤ n)) &&
  decide (1 ≤ i.customerName.length) &&
  decide (0 ≤ i.totalAmount) &&
  i.orderItems.all insertOrderItemValid

/-- `POST /api/orders`: `insertOrderSchema.safeParse` failure responds 400
before any storage call; otherwise `storage.createOrder` runs, a success
responds 201 and a thrown storage error responds 500.  Returns the HTTP
status code and the database state after the request. -/
def postOrders (itemsInsertFails : Bool) (now : Int) (s : DBState)
    (i : InsertOrder) : Nat × DBState :=
  if insertOrderValid i then
    match createOrder itemsInsertFails now s i with
    | Except.ok (_, s') => (201, s')
    | Except.error _ => (500, s)
  else (400, s)

/-- `PATCH /api/orders/:id/priority`: a missing or non-enum priority
responds 400; otherwise the handler invokes `storage.updateOrder`, a method
`DatabaseStorage` never defines, so the property access yields `undefined`,
the call raises a TypeError, and the catch block responds 500 with the
database untouched.  The 200 branch is unreachable. -/
def patchOrderPriorityRoute (s : DBState) (orderId : Nat)
    (priority : Option String) : Nat × DBState :=
  match priority with
  | none => (400, s)
  | some p =>
    if p = "low" ∨ p = "medium" ∨ p = "high" ∨ p = "urgent" then
      if databaseStorageMethods.contains "updateOrder" then
        (200, s)
      else
        (500, s)
    else (400, s)

/-- Body strings accepted by `PATCH /api/orders/:id/status`
(`orderStatuses.includes(status)`). -/
def parseOrderStatus : String → Option OrderStatus
| "pending" => some OrderStatus.pending
| "confirmed" => some OrderStatus.confirmed
| "preparing" => some OrderStatus.preparing
| "ready" => some OrderStatus.ready
| "completed" => some OrderStatus.completed
| "cancelled" => some OrderStatus.cancelled
| _ => none

/-- `PATCH /api/orders/:id/status`: invalid status responds 400; then
`storage.updateOrderStatus` runs inside try/catch.  When the id resolves
to no row the storage method throws `Error("Order not found")` and the
catch block responds 500 unconditionally — the handler's `if (!order) 404`
branch is dead code, because the storage method throws rather than
returning undefined. -/
def patchOrderStatusRoute (s : DBState) (orderId : Nat)
    (statusBody : Option String) : Nat × DBState :=
  match statusBody with
  | none => (400, s)
  | some raw =>
    match parseOrderStatus raw with
    | none => (400, s)
    | some st =>
      match updateOrderStatus s orderId st with
      | Except.ok (_, s') => (200, s')
      | Except.error _ => (500, s)

/-- `PATCH /api/tables/:id`: the catch block maps the thrown message
`"Table not found"` to 404 and everything else to 500. -/
def patchTableRoute (s : DBState) (id : Nat) (p : PartialInsertTable) :
    Nat × DBState :=
  match updateTable s id p with
  | Except.ok (_, s') => (200, s')
  | Except.error e => (if e = "Table not found" then 404 else 500, s)

/-- Body strings accepted by `PATCH /api/tables/:id/status`
(`tableStatuses.includes(status)`). -/
def parseTableStatus : String → Option TableStatus
| "available" => some TableStatus.available
| "occupied" => some TableStatus.occupied
| "reserved" => some TableStatus.reserved
| _ => none

/-- `PATCH /api/tables/:id/status`: the handler destructures `status` and
`customerName` from the body and calls
`storage.updateTableStatus(id, status, customerName)` — but the storage
method's signature accepts only the id and the status, so the third
argument is dropped and `customerNameBody` is never written anywhere.
The catch block maps `"Table not found"` to 404, anything else to 500. -/
def patchTableStatusRoute (s : DBState) (id : Nat)
    (statusBody : Option String) (customerNameBody : Option String) :
    Nat × DBState :=
  match statusBody with
  | none => (400, s)
  | some raw =>
    match parseTableStatus raw with
    | none => (400, s)
    | some st =>
      match updateTableStatus s id st with
      | Except.ok (_, s') => (200, s')
      | Except.error e => (if e = "Table not found" then 404 else 500, s)

/-- `DELETE /api/tables/:id`: 204 on success; the catch block maps
`"Table not found"` to 404, anything else to 500. -/
def deleteTableRoute (s : DBState) (id : Nat) : Nat × DBState :=
  match deleteTable s id with
  | Except.ok s' => (204, s')
  | Except.error e => (if e = "Table not found" then 404 else 500, s)

/-! ### Fulfillment scheduler (KitchenDisplay component) -/

/-- The kitchen display's active filter:
`["pending", "confirmed", "preparing"].includes(order.status)`.
Note the source list omits `ready`. -/
def kitchenActiveOrders (orders : List OrderRow) : List OrderRow :=
  orders.filter (fun o =>
    o.status == OrderStatus.pending ||
    o.status == OrderStatus.confirmed ||
    o.status == OrderStatus.preparing)

/-- The two values of the display's `sortBy` selector. -/
inductive SortMode
| priority
| time
deriving DecidableEq, Repr

/-- `priorityOrder = (urgent: 0, high: 1, medium: 2, low: 3)`. -/
def priorityOrder : OrderPriority → Nat
| OrderPriority.urgent => 0
| OrderPriority.high => 1
| OrderPriority.medium => 2
| OrderPriority.low => 3

/-- The display's comparator: in priority mode the rank difference, falling
back to the difference of creation times on a rank tie; in time mode the
difference of creation times. -/
def orderCompare (mode : SortMode) (a b : OrderRow) : Int :=
  match mode with
  | SortMode.priority =>
    let d : Int := (priorityOrder a.priority : Int) - (priorityOrder b.priority : Int)
    if d ≠ 0 then d else a.createdAt - b.createdAt
  | SortMode.time => a.createdAt - b.createdAt

/-- `a` may precede `b` under `Array.prototype.sort` with the display's
comparator exactly when the comparator is non-positive. -/
def jsSortLe (mode : SortMode) (a b : OrderRow) : Prop :=
  orderCompare mode a b ≤ 0

instance (mode : SortMode) : DecidableRel (jsSortLe mode) :=
  fun a b => Int.decLe _ _

/-- `sortedOrders = [...activeOrders].sort(comparator)`: a stable sort of
the display's active orders by the selected comparator. -/
def sortedOrders (mode : SortMode) (orders : List OrderRow) : List OrderRow :=
  List.insertionSort (jsSortLe mode) (kitchenActiveOrders orders)

/-- The display's overdue test, recomputed on each render:
`order.estimatedReadyTime && new Date(order.estimatedReadyTime) < new Date()`. -/
def isOverdue (o : OrderRow) (now : Int) : Bool :=
  match o.estimatedReadyTime with
  | none => false
  | some t => decide (t < now)

/-- One render pass: each fetched order is paired with its derived overdue
flag; the orders themselves are not modified and nothing is written back. -/
def renderOverdueFlags (orders : List OrderRow) (now : Int) :
    List (OrderRow × Bool) :=
  orders.map (fun o => (o, isOverdue o now))

/-! ### Sample data for concrete evaluations -/

/-- A pending dine-in order row with the given id, priority and creation
time. -/
def mkPendingOrder (id : Nat) (p : OrderPriority) (created : Int) : OrderRow :=
  { id := id, orderType := OrderType.dine_in, status := OrderStatus.pending,
    priority := p, tableNumber := some 1, customerName := "c",
    customerPhone := none, totalAmount := 0, specialInstructions := none,
    createdAt := created, estimatedReadyTime := none }

/-- First-created sample order, priority low. -/
def sampleLowOrder : OrderRow := mkPendingOrder 1 OrderPriority.low 1

/-- Second-created sample order, priority urgent. -/
def sampleUrgentOrder : OrderRow := mkPendingOrder 2 OrderPriority.urgent 2

/-- Third-created sample order, priority medium. -/
def sampleMediumOrder : OrderRow := mkPendingOrder 3 OrderPriority.medium 3

/-- A sample order in status ready. -/
def readyOrder : OrderRow :=
  { mkPendingOrder 4 OrderPriority.medium 1 with status := OrderStatus.ready }

/-- A database holding one pending order. -/
def pendingState : DBState :=
  { initState with orders := [sampleLowOrder], nextOrderId := 2 }

/-- A sample line-item input. -/
def sampleItem : InsertOrderItem :=
  { menuItemId := 1, quantity := 2, price := 500, specialInstructions := none }

/-- A schema-valid create-order input with one line item. -/
def sampleInsertOrder : InsertOrder :=
  { orderType := OrderType.dine_in, tableNumber := some 4,
    customerName := "Ann", customerPhone := none, totalAmount := 1000,
    specialInstructions := none, orderItems := [sampleItem] }

/-- A dine-in create-order input with no table number and one valid line
item. -/
def noTableDineInOrder : InsertOrder :=
  { orderType := OrderType.dine_in, tableNumber := none,
    customerName := "Ann", customerPhone := none, totalAmount := 1000,
    specialInstructions := none, orderItems := [sampleItem] }

/-- A dine-in create-order input with no table number and an empty
line-item list. -/
def emptyItemsOrder : InsertOrder :=
  { orderType := OrderType.dine_in, tableNumber := none,
    customerName := "Ann", customerPhone := none, totalAmount := 0,
    specialInstructions := none, orderItems := [] }

/-- A create-order input holding a line item with quantity 0. -/
def badItemOrder : InsertOrder :=
  { orderType := OrderType.takeaway, tableNumber := none,
    customerName := "Bob", customerPhone := none, totalAmount := 0,
    specialInstructions := none,
    orderItems := [{ menuItemId := 1, quantity := 0, price := 500,
                     specialInstructions := none }] }

/-- The database state after a successful sample create. -/
def createdState : DBState :=
  { initState with
    orders := [insertedOrderRow initState 0 sampleInsertOrder]
    orderItems := insertedItemRows 1 1 sampleInsertOrder.orderItems
    nextOrderId := 2
    nextOrderItemId := 2 }

/-- A sample stored table, number 5, active. -/
def sampleTable : TableRow :=
  { id := 1, tableNumber := 5, capacity := 4, status := TableStatus.available,
    shape := TableShape.square, positionX := 0, positionY := 0, width := 1,
    height := 1, isActive := true, customerName := none }

/-- A database holding the sample table. -/
def tableState : DBState :=
  { initState with tables := [sampleTable], nextTableId := 2 }

/-- A create-table input reusing the sample table's number 5. -/
def sampleInsertTable : InsertTable :=
  { tableNumber := 5, capacity := 4, status := TableStatus.available,
    shape := TableShape.square, positionX := 1, positionY := 0, width := 1,
    height := 1, customerName := none }

/-- The sample table after a status update to occupied. -/
def occupiedSampleTable : TableRow :=
  { sampleTable with status := TableStatus.occupied }

/-- The sample database after the status update to occupied. -/
def occupiedTableState : DBState :=
  { tableState with tables := [occupiedSampleTable] }

/-- The caller-visible columns of a stored line item. -/
def itemView (it : OrderItemRow) : Nat × Int × Int :=
  (it.menuItemId, it.quantity, it.price)

/-- The corresponding fields of a submitted line item. -/
def inputItemView (it : InsertOrderItem) : Nat × Int × Int :=
  (it.menuItemId, it.quantity, it.price)

/-- Every column of a table row except status. -/
def tableFrame (t : TableRow) :
    Nat × Int × Int × TableShape × Int × Int × Int × Int × Bool × Option String :=
  (t.id, t.tableNumber, t.capacity, t.shape, t.positionX, t.positionY,
   t.width, t.height, t.isActive, t.customerName)

instance (mode : SortMode) : IsTotal OrderRow (jsSortLe mode) :=
  ⟨by
    intro a b
    unfold jsSortLe orderCompare
    cases mode <;> dsimp only [] <;> ((try split_ifs) <;> omega)⟩

instance (mode : SortMode) : IsTrans OrderRow (jsSortLe mode) :=
  ⟨by
    intro a b c hab hbc
    unfold jsSortLe orderCompare at hab hbc ⊢
    cases mode <;> dsimp only [] at hab hbc ⊢ <;>
      ((try split_ifs at hab hbc ⊢) <;> omega)⟩

/-! ### Helper lemmas -/

/-- An order's status is in the active IN-list iff it is one of the four
non-terminal statuses. -/
theorem isActiveStatus_iff (st : OrderStatus) :
    isActiveStatus st = true ↔
      (st = OrderStatus.pending ∨ st = OrderStatus.confirmed ∨
       st = OrderStatus.preparing ∨ st = OrderStatus.ready) := by
  cases st <;> simp [isActiveStatus]

/-- An order's status is in the historical IN-list iff it is terminal. -/
theorem isHistoricalStatus_iff (st : OrderStatus) :
    isHistoricalStatus st = true ↔
      (st = OrderStatus.completed ∨ st = OrderStatus.cancelled) := by
  cases st <;> simp [isHistoricalStatus]

/-- The two status filters are complementary. -/
theorem isActiveStatus_eq_not_historical (st : OrderStatus) :
    isActiveStatus st = !isHistoricalStatus st := by
  cases st <;> rfl

/-- Membership in the orders returned by getActiveOrders. -/
theorem mem_getActiveOrders (s : DBState) (o : OrderRow) :
    o ∈ (getActiveOrders s).map Prod.fst ↔
      o ∈ s.orders ∧ isActiveStatus o.status = true := by
  simp [getActiveOrders, List.map_map, Function.comp, List.mem_map,
        List.mem_insertionSort, List.mem_filter]

/-- Membership in the orders returned by getCompletedOrders. -/
theorem mem_getCompletedOrders (s : DBState) (o : OrderRow) :
    o ∈ (getCompletedOrders s).map Prod.fst ↔
      o ∈ s.orders ∧ isHistoricalStatus o.status = true := by
  simp [getCompletedOrders, List.map_map, Function.comp, List.mem_map,
        List.mem_insertionSort, List.mem_filter]

/-- The priority-mode js comparator is non-positive exactly for the
lexicographic order on (priority rank, creation time). -/
theorem jsSortLe_priority_iff (a b : OrderRow) :
    jsSortLe SortMode.priority a b ↔
      (priorityOrder a.priority < priorityOrder b.priority ∨
       (priorityOrder a.priority = priorityOrder b.priority ∧
        a.createdAt ≤ b.createdAt)) := by
  unfold jsSortLe orderCompare
  dsimp only []
  split_ifs <;> omega

/-- The time-mode js comparator is non-positive exactly for ascending
creation time. -/
theorem jsSortLe_time_iff (a b : OrderRow) :
    jsSortLe SortMode.time a b ↔ a.createdAt ≤ b.createdAt := by
  unfold jsSortLe orderCompare
  dsimp only []
  omega

/-! ### Claim theorems -/

/-- C4: every order returned by getActiveOrders has one of the four active
statuses, every order returned by getCompletedOrders has a terminal status,
and a stored order appears in exactly one of the two result sets: the
partition is total and disjoint. -/
theorem orders_partition_total_disjoint (s : DBState) (o : OrderRow) :
    (o ∈ (getActiveOrders s).map Prod.fst ↔ o ∈ s.orders ∧
      (o.status = OrderStatus.pending ∨ o.status = OrderStatus.confirmed ∨
       o.status = OrderStatus.preparing ∨ o.status = OrderStatus.ready)) ∧
    (o ∈ (getCompletedOrders s).map Prod.fst ↔ o ∈ s.orders ∧
      (o.status = OrderStatus.completed ∨ o.status = OrderStatus.cancelled)) ∧
    (o ∈ s.orders →
      (o ∈ (getActiveOrders s).map Prod.fst ↔
       ¬ o ∈ (getCompletedOrders s).map Prod.fst)) := by
  refine ⟨?_, ?_, ?_⟩
  · rw [mem_getActiveOrders, isActiveStatus_iff]
  · rw [mem_getCompletedOrders, isHistoricalStatus_iff]
  · intro ho
    rw [mem_getActiveOrders, mem_getCompletedOrders,
        isActiveStatus_eq_not_historical]
    simp [ho]

/-- C4 witness: the sample pending order is in the active result set and
not in the historical one. -/
theorem orders_partition_total_disjoint_witness :
    sampleLowOrder ∈ (getActiveOrders pendingState).map Prod.fst ↔
      ¬ sampleLowOrder ∈ (getCompletedOrders pendingState).map Prod.fst :=
  (orders_partition_total_disjoint pendingState sampleLowOrder).2.2 (by decide)

/-- C5: in priority mode the scheduler emits a permutation of the display's
active orders that is pairwise ordered by priority rank with ascending
creation time on rank ties; in time mode, pairwise ordered by ascending
creation time; and the orders created in sequence [low, urgent, medium]
are scheduled as [urgent, medium, low]. -/
theorem scheduler_sort_spec (l : List OrderRow) :
    List.Perm (sortedOrders SortMode.priority l) (kitchenActiveOrders l) ∧
    List.Pairwise (fun a b =>
        priorityOrder a.priority < priorityOrder b.priority ∨
        (priorityOrder a.priority = priorityOrder b.priority ∧
         a.createdAt ≤ b.createdAt))
      (sortedOrders SortMode.priority l) ∧
    List.Perm (sortedOrders SortMode.time l) (kitchenActiveOrders l) ∧
    List.Pairwise (fun a b => a.createdAt ≤ b.createdAt)
      (sortedOrders SortMode.time l) ∧
    sortedOrders SortMode.priority
        [sampleLowOrder, sampleUrgentOrder, sampleMediumOrder] =
      [sampleUrgentOrder, sampleMediumOrder, sampleLowOrder] := by
  refine ⟨List.perm_insertionSort _ _, ?_, List.perm_insertionSort _ _, ?_,
    by decide⟩
  · exact List.Pairwise.imp (fun hab => (jsSortLe_priority_iff _ _).mp hab)
      (List.sorted_insertionSort (jsSortLe SortMode.priority)
        (kitchenActiveOrders l))
  · exact List.Pairwise.imp (fun hab => (jsSortLe_time_iff _ _).mp hab)
      (List.sorted_insertionSort (jsSortLe SortMode.time)
        (kitchenActiveOrders l))

/-- C6 counterexample: a fetched order in status ready is an active order,
yet the kitchen display's work queue drops it — the display filter lists
only pending, confirmed and preparing. -/
theorem kitchen_queue_drops_ready :
    isActiveStatus readyOrder.status = true ∧
    readyOrder ∉ kitchenActiveOrders [readyOrder] := by
  decide

/-- C6 amended: the kitchen display's work queue contains exactly the
fetched orders whose status is pending, confirmed or preparing; orders in
status ready are excluded. -/
theorem kitchen_queue_exact (l : List OrderRow) (o : OrderRow) :
    o ∈ kitchenActiveOrders l ↔
      o ∈ l ∧ (o.status = OrderStatus.pending ∨
        o.status = OrderStatus.confirmed ∨
        o.status = OrderStatus.preparing) := by
  simp [kitchenActiveOrders, List.mem_filter]
  tauto

/-- C9: the overdue flag is true exactly when estimatedReadyTime is set and
strictly earlier than now; an order one minute past its estimate is
flagged, one ten minutes ahead is not, one without an estimate never is;
and the render pass leaves every fetched order unchanged — the flag is
derived, never written back. -/
theorem overdue_flag_spec (o : OrderRow) (now : Int) (l : List OrderRow) :
    (isOverdue o now = true ↔
      ∃ t, o.estimatedReadyTime = some t ∧ t < now) ∧
    isOverdue { o with estimatedReadyTime := some (now - 60000) } now = true ∧
    isOverdue { o with estimatedReadyTime := some (now + 600000) } now = false ∧
    isOverdue { o with estimatedReadyTime := none } now = false ∧
    (renderOverdueFlags l now).map Prod.fst = l := by
  refine ⟨?_, ?_, ?_, ?_, ?_⟩
  · cases h : o.estimatedReadyTime <;> simp [isOverdue, h]
  · simp [isOverdue]
  · simp [isOverdue]
  · simp only [isOverdue]
  · simp [renderOverdueFlags, List.map_map, Function.comp_def]

/-- C2: PATCH /api/orders/:id/priority with the valid value high never
succeeds: DatabaseStorage defines no updateOrder method, so the handler
responds 500 and leaves the database unchanged — on the first call and on
an identical repeat call alike. -/
theorem patchOrderPriority_always_500 (s : DBState) (id : Nat) :
    patchOrderPriorityRoute s id (some "high") = (500, s) ∧
    patchOrderPriorityRoute (patchOrderPriorityRoute s id (some "high")).2
      id (some "high") = (500, s) ∧
    databaseStorageMethods.contains "updateOrder" = false :=
  ⟨rfl, rfl, rfl⟩

/-- Soft-deleting by id leaves every row's table number in place. -/
theorem any_tableNumber_map_softDelete (l : List TableRow) (id : Nat) (n : Int) :
    ((l.map (fun t => if t.id == id then { t with isActive := false } else t)).any
        (fun t => t.tableNumber == n)) =
      l.any (fun t => t.tableNumber == n) := by
  induction l with
  | nil => rfl
  | cons hd tl ih =>
    simp only [List.map_cons, List.any_cons, ih]
    by_cases hid : (hd.id == id) = true
    · simp [hid]
    · simp [hid]

/-- C8: at an id resolving to no row, the table-update, table-status and
table-delete boundaries translate the storage error to 404, but the
order-status boundary responds 500 — its 404 branch is dead because
updateOrderStatus throws rather than returning undefined. -/
theorem notFound_boundary (s : DBState) (id : Nat) (p : PartialInsertTable) :
    ((∀ o ∈ s.orders, o.id ≠ id) →
      patchOrderStatusRoute s id (some "confirmed") = (500, s)) ∧
    ((∀ t ∈ s.tables, t.id ≠ id) →
      patchTableRoute s id p = (404, s) ∧
      patchTableStatusRoute s id (some "available") none = (404, s) ∧
      deleteTableRoute s id = (404, s)) := by
  constructor
  · intro h
    have hf : s.orders.find? (fun o => o.id == id) = none := by
      rw [List.find?_eq_none]
      intro o ho
      simpa using h o ho
    have hps : parseOrderStatus "confirmed" = some OrderStatus.confirmed := rfl
    simp [patchOrderStatusRoute, hps, updateOrderStatus, hf]
  · intro h
    have hf : s.tables.find? (fun t => t.id == id) = none := by
      rw [List.find?_eq_none]
      intro t ht
      simpa using h t ht
    have ha : s.tables.any (fun t => t.id == id) = false := by
      apply Bool.eq_false_iff.mpr
      intro hany
      rcases List.any_eq_true.mp hany with ⟨t, ht, hid⟩
      exact h t ht (by simpa using hid)
    have hts : parseTableStatus "available" = some TableStatus.available := rfl
    refine ⟨?_, ?_, ?_⟩
    · simp [patchTableRoute, updateTable, hf]
    · simp [patchTableStatusRoute, hts, updateTableStatus, hf]
    · simp [deleteTableRoute, deleteTable, ha]

/-- C8 witness: on the empty database the order-status boundary responds
500 while the table-delete boundary responds 404. -/
theorem notFound_boundary_witness :
    patchOrderStatusRoute initState 1 (some "confirmed") = (500, initState) ∧
    deleteTableRoute initState 1 = (404, initState) :=
  ⟨(notFound_boundary initState 1 {}).1 (by simp [initState]),
   ((notFound_boundary initState 1 {}).2 (by simp [initState])).2.2⟩

/-- C7 counterexample: a dine-in order with no table number and one valid
line item passes insertOrderSchema and is created — POST /api/orders
responds 201, not 400; and an empty line-item list also passes the schema,
so the request reaches the storage transaction and dies there with 500
(the empty insert throws), not with a schema 400 before any storage
call. -/
theorem postOrders_accepts_invalid_shapes :
    noTableDineInOrder.orderType = OrderType.dine_in ∧
    noTableDineInOrder.tableNumber = none ∧
    insertOrderValid noTableDineInOrder = true ∧
    (postOrders false 0 initState noTableDineInOrder).1 = 201 ∧
    emptyItemsOrder.orderItems = [] ∧
    insertOrderValid emptyItemsOrder = true ∧
    postOrders false 0 initState emptyItemsOrder = (500, initState) := by
  decide

/-- C7 amended: POST /api/orders responds 400 with the database untouched
exactly when the body fails insertOrderSchema, and a line item with
quantity below 1 or a negative price always fails the schema; the schema
does not reject an empty item list, a dine-in body without a table number,
or a takeaway body with one. -/
theorem postOrders_schema_validation (fails : Bool) (now : Int) (s : DBState)
    (i : InsertOrder) :
    ((postOrders fails now s i).1 = 400 ↔ insertOrderValid i = false) ∧
    (insertOrderValid i = false → postOrders fails now s i = (400, s)) ∧
    ((∃ it ∈ i.orderItems, it.quantity < 1 ∨ it.price < 0) →
      insertOrderValid i = false) := by
  refine ⟨?_, ?_, ?_⟩
  · by_cases hv : insertOrderValid i = true
    · rcases hc : createOrder fails now s i with e | pr
      · simp [postOrders, hv, hc]
      · simp [postOrders, hv, hc]
    · have hv' : insertOrderValid i = false := by simpa using hv
      simp [postOrders, hv']
  · intro hv
    simp [postOrders, hv]
  · rintro ⟨it, hmem, hbad⟩
    have hall : i.orderItems.all insertOrderItemValid = false := by
      apply Bool.eq_false_iff.mpr
      intro hall
      have hit := List.all_eq_true.mp hall it hmem
      simp [insertOrderItemValid] at hit
      omega
    simp [insertOrderValid, hall]

/-- C7 witness: the input holding a quantity-0 line item is rejected with
400 and the database is untouched. -/
theorem postOrders_schema_validation_witness :
    postOrders false 0 initState badItemOrder = (400, initState) :=
  (postOrders_schema_validation false 0 initState badItemOrder).2.1 (by decide)

/-- C3: createTable throws duplicate_table_number exactly when some stored
table — active or soft-deleted alike — already carries the requested
number, succeeds only when none does, and deleteTable (the soft delete)
never changes the stored numbers, so a deleted table still blocks its
number. -/
theorem createTable_unique_number (s : DBState) (t : InsertTable) (id : Nat)
    (n : Int) :
    (createTable s t = Except.error "duplicate_table_number" ↔
      ∃ row ∈ s.tables, row.tableNumber = t.tableNumber) ∧
    (∀ row s', createTable s t = Except.ok (row, s') →
      ∀ u ∈ s.tables, u.tableNumber ≠ t.tableNumber) ∧
    (∀ s', deleteTable s id = Except.ok s' →
      tableNumberExists s' n = tableNumberExists s n) := by
  have hex : tableNumberExists s t.tableNumber = true ↔
      ∃ row ∈ s.tables, row.tableNumber = t.tableNumber := by
    simp [tableNumberExists, List.any_eq_true]
  refine ⟨?_, ?_, ?_⟩
  · by_cases he : tableNumberExists s t.tableNumber = true
    · simp [createTable, he, hex.mp he]
    · have he' : tableNumberExists s t.tableNumber = false := by simpa using he
      simp only [createTable, he', Bool.false_eq_true, if_false]
      constructor
      · intro hbad
        exact absurd hbad (by simp)
      · intro hx
        exact absurd (hex.mpr hx) (by simp [he'])
  · intro row s' hok u hu heq
    have hT := hex.mpr ⟨u, hu, heq⟩
    simp [createTable, hT] at hok
  · intro s' hdel
    by_cases hany : s.tables.any (fun t' => t'.id == id) = true
    · simp only [deleteTable, hany, if_true] at hdel
      simp only [Except.ok.injEq] at hdel
      subst hdel
      simpa [tableNumberExists] using
        any_tableNumber_map_softDelete s.tables id n
    · simp [deleteTable, hany] at hdel

/-- C3 witness: after the sample table with number 5 is stored, creating
another table with number 5 throws duplicate_table_number. -/
theorem createTable_unique_number_witness :
    createTable tableState sampleInsertTable =
      Except.error "duplicate_table_number" :=
  (createTable_unique_number tableState sampleInsertTable 1 5).1.mpr
    ⟨sampleTable, by decide, rfl⟩

/-- C10: updateTableStatus writes only the status column — the updated row
carries the requested status, every other column of every row is
unchanged, rows with other ids are untouched — and the route's response
and resulting state are independent of the customerName in the body,
since the storage method accepts only the id and the status. -/
theorem updateTableStatus_frame (s : DBState) (id : Nat) (st : TableStatus) :
    (∀ t' s', updateTableStatus s id st = Except.ok (t', s') →
      t'.status = st ∧
      s'.tables.map tableFrame = s.tables.map tableFrame ∧
      ∀ u ∈ s.tables, u.id ≠ id → u ∈ s'.tables) ∧
    (∀ stb cn cn', patchTableStatusRoute s id stb cn =
      patchTableStatusRoute s id stb cn') := by
  constructor
  · intro t' s' hok
    unfold updateTableStatus at hok
    rcases hfind : s.tables.find? (fun t => t.id == id) with _ | t0 <;>
      rw [hfind] at hok
    · simp at hok
    · simp only [Except.ok.injEq, Prod.mk.injEq] at hok
      obtain ⟨ht', hs'⟩ := hok
      subst ht' hs'
      refine ⟨rfl, ?_, ?_⟩
      · rw [List.map_map]
        apply List.map_congr_left
        intro u hu
        by_cases hid : (u.id == id) = true
        · simp [Function.comp, hid, tableFrame]
        · simp [Function.comp, hid]
      · intro u hu hne
        refine List.mem_map.mpr ⟨u, hu, ?_⟩
        simp [hne]
  · intro stb cn cn'
    rfl

/-- C10 witness: updating the sample table to occupied yields the occupied
status while all other columns of the stored rows stay as they were. -/
theorem updateTableStatus_frame_witness :
    occupiedSampleTable.status = TableStatus.occupied ∧
    occupiedTableState.tables.map tableFrame =
      tableState.tables.map tableFrame :=
  ⟨((updateTableStatus_frame tableState 1 TableStatus.occupied).1
      occupiedSampleTable occupiedTableState rfl).1,
   ((updateTableStatus_frame tableState 1 TableStatus.occupied).1
      occupiedSampleTable occupiedTableState rfl).2.1⟩

/-- C1: createOrder is atomic — when the transaction fails no row of the
new order exists, and on success the returned order is stored with status
pending and priority medium together with exactly one line-item row per
submitted item, matching menu item, quantity and price; with a non-empty
input list the created order is therefore never observable with zero
items. -/
theorem createOrder_atomic (fails : Bool) (now : Int) (s : DBState)
    (i : InsertOrder) (hf : s.ordersFresh = true) (hne : i.orderItems ≠ []) :
    (∀ e, createOrder fails now s i = Except.error e →
      itemsOf s s.nextOrderId = [] ∧ ∀ o ∈ s.orders, o.id ≠ s.nextOrderId) ∧
    (∀ o s', createOrder fails now s i = Except.ok (o, s') →
      o ∈ s'.orders ∧ o.status = OrderStatus.pending ∧
      o.priority = OrderPriority.medium ∧
      (itemsOf s' o.id).map itemView = i.orderItems.map inputItemView ∧
      (itemsOf s' o.id).length = i.orderItems.length ∧
      0 < (itemsOf s' o.id).length) := by
  have hfr := hf
  simp only [DBState.ordersFresh, Bool.and_eq_true, List.all_eq_true,
    decide_eq_true_eq] at hfr
  obtain ⟨h1, h2⟩ := hfr
  have hnil : itemsOf s s.nextOrderId = [] := by
    simp only [itemsOf, List.filter_eq_nil_iff]
    intro it hit
    have := h2 it hit
    simp
    omega
  have hfresh : ∀ o ∈ s.orders, o.id ≠ s.nextOrderId := by
    intro o ho
    have := h1 o ho
    omega
  constructor
  · intro e _
    exact ⟨hnil, hfresh⟩
  · intro o s' hok
    have hemp : i.orderItems.isEmpty = false := by
      rcases h : i.orderItems with _ | ⟨a, t⟩
      · exact absurd h hne
      · simp [h]
    unfold createOrder at hok
    simp only [hemp, Bool.false_eq_true, if_false] at hok
    by_cases hfl : fails = true
    · simp [hfl] at hok
    · have hfl' : fails = false := by simpa using hfl
      rw [hfl'] at hok
      simp only [Bool.false_eq_true, if_false, Except.ok.injEq,
        Prod.mk.injEq] at hok
      obtain ⟨ho, hs'⟩ := hok
      subst ho hs'
      have hitems : itemsOf
          { s with
            orders := s.orders ++ [insertedOrderRow s now i]
            orderItems := s.orderItems ++
              insertedItemRows s.nextOrderItemId (insertedOrderRow s now i).id
                i.orderItems
            nextOrderId := s.nextOrderId + 1
            nextOrderItemId := s.nextOrderItemId + i.orderItems.length }
          (insertedOrderRow s now i).id =
          insertedItemRows s.nextOrderItemId (insertedOrderRow s now i).id
            i.orderItems := by
        simp only [itemsOf, List.filter_append]
        rw [show (insertedOrderRow s now i).id = s.nextOrderId from rfl]
        have hnil2 : List.filter (fun it => it.orderId == s.nextOrderId)
            s.orderItems = [] := hnil
        rw [hnil2]
        simp only [List.nil_append]
        apply List.filter_eq_self.mpr
        intro a ha
        simp only [insertedItemRows, List.mem_map] at ha
        obtain ⟨p, _, hp⟩ := ha
        subst hp
        simp
      refine ⟨?_, rfl, rfl, ?_, ?_, ?_⟩
      · simp
      · rw [hitems]
        simp only [insertedItemRows, List.map_map]
        rw [show ((fun it => itemView it) ∘ fun p =>
            ({ id := s.nextOrderItemId + p.1,
               orderId := (insertedOrderRow s now i).id,
               menuItemId := p.2.menuItemId, quantity := p.2.quantity,
               specialInstructions := p.2.specialInstructions,
               price := p.2.price } : OrderItemRow)) =
            (fun it => inputItemView it) ∘ Prod.snd from rfl]
        rw [← List.map_map, List.enum_map_snd]
      · rw [hitems]
        simp [insertedItemRows]
      · rw [hitems]
        simp only [insertedItemRows, List.length_map, List.enum_length]
        exact List.length_pos.mpr hne

/-- C1 witness: on the empty database the sample create succeeds; the
created order has status pending, priority medium and one stored line item
per submitted one. -/
theorem createOrder_atomic_witness :
    (insertedOrderRow initState 0 sampleInsertOrder).status =
      OrderStatus.pending ∧
    (insertedOrderRow initState 0 sampleInsertOrder).priority =
      OrderPriority.medium ∧
    (itemsOf createdState (insertedOrderRow initState 0 sampleInsertOrder).id).length =
      sampleInsertOrder.orderItems.length :=
  ⟨((createOrder_atomic false 0 initState sampleInsertOrder rfl (by decide)).2
      (insertedOrderRow initState 0 sampleInsertOrder) createdState rfl).2.1,
   ((createOrder_atomic false 0 initState sampleInsertOrder rfl (by decide)).2
      (insertedOrderRow initState 0 sampleInsertOrder) createdState rfl).2.2.1,
   ((createOrder_atomic false 0 initState sampleInsertOrder rfl (by decide)).2
      (insertedOrderRow initState 0 sampleInsertOrder) createdState rfl).2.2.2.2.1⟩

end Restaurant
